import Mathlib

/-!
Shallow embedding of `lg-webos-client` (src/src/lib.rs): a WebSocket client
for the LG webOS remote-control protocol.  The embedding models

* the JSON value space used by `serde_json::Value`,
* the command catalogue `create_command` (lib.rs 226-373),
* the dispatcher `WebosClient::send_command` (lib.rs 170-194),
* the response router `process_messages_from_server` (lib.rs 197-224),
* the connection bootstrap `WebosClient::new` (lib.rs 145-168).

Concurrency is modelled by explicit state passing: every operation is a
function from the shared state (`registered`, `next_command_id`,
`pending_requests`) to a result plus the next state.  A Rust panic
(`unwrap` / `expect` on a missing value) is a distinguished `panic`
outcome.  `u8` arithmetic is `Nat` modulo 256 (the wrapping semantics of a
release build, which is also what the spec describes for the id counter).
-/

namespace LgWebos

/-- JSON values, as in `serde_json::Value`.  Objects are association lists
with distinct keys (serde's map); `num` covers the integer numbers (the
only ones the code inspects, via `as_i64`). -/
inductive Json where
  | null : Json
  | bool (b : Bool) : Json
  | num (n : Int) : Json
  | str (s : String) : Json
  | arr (xs : List Json) : Json
  | obj (fields : List (String × Json)) : Json

/-- `json[key]` of `serde_json`: field lookup on an object, `Null` on a
missing key or a non-object. -/
def Json.index : Json → String → Json
  | .obj fields, key =>
      match fields.lookup key with
      | some v => v
      | none => .null
  | _, _ => .null

/-- `Value::as_i64`: the number when the value is an integer in `i64`
range, otherwise `None`. -/
def Json.as_i64 : Json → Option Int
  | .num n => if -(2 ^ 63) ≤ n ∧ n < 2 ^ 63 then some n else none
  | _ => none

/-- `Value == "literal"` of `serde_json` (`PartialEq<str>` on `Value`):
true exactly when the value is a string with that content. -/
def Json.eqStr : Json → String → Bool
  | .str s, t => s == t
  | _, _ => false

/-- The `Command` enum (lib.rs 28-53). -/
inductive Command where
  | CreateToast (text : String)
  | OpenBrowser (url : String)
  | TurnOff
  | SetChannel (channel_id : String)
  | SetInput (input_id : String)
  | SetMute (mute : Bool)
  | SetVolume (volume : Int)
  | GetChannelList
  | GetCurrentChannel
  | OpenChannel (channel_id : String)
  | GetExternalInputList
  | SwitchInput (input_id : String)
  | IsMuted
  | GetVolume
  | PlayMedia
  | StopMedia
  | PauseMedia
  | RewindMedia
  | ForwardMedia
  | ChannelUp
  | ChannelDown
  | Turn3DOn
  | Turn3DOff
  | GetServicesList

/-- The outbound wire envelope `CommandRequest` (lib.rs 19-26).  `id` is a
`u8`, kept as a `Nat` below 256. -/
structure CommandRequest where
  id : Nat
  type : String
  uri : String
  payload : Option Json

/-- The program-facing `CommandResponse` (lib.rs 54-57). -/
structure CommandResponse where
  id : Nat
  payload : Option Json

/-- `create_command` (lib.rs 226-373): the command catalogue, mapping a
`Command` and an id to the wire envelope. -/
def create_command (id : Nat) (cmd : Command) : Option CommandRequest :=
  match cmd with
  | .CreateToast text =>
      some ⟨id, "request", "ssap://system.notifications/createToast",
        some (.obj [("message", .str text)])⟩
  | .OpenBrowser url =>
      some ⟨id, "request", "ssap://system.launcher/open",
        some (.obj [("target", .str url)])⟩
  | .TurnOff =>
      some ⟨id, "request", "ssap://system/turnOff", none⟩
  | .SetChannel channel_id =>
      some ⟨id, "request", "ssap://tv/openChannel",
        some (.obj [("channelId", .str channel_id)])⟩
  | .SetInput input_id =>
      some ⟨id, "request", "ssap://tv/switchInput",
        some (.obj [("inputId", .str input_id)])⟩
  | .SetMute mute =>
      some ⟨id, "request", "ssap://audio/setMute",
        some (.obj [("mute", .bool mute)])⟩
  | .SetVolume volume =>
      some ⟨id, "request", "ssap://audio/setVolume",
        some (.obj [("volume", .num volume)])⟩
  | .GetChannelList =>
      some ⟨id, "request", "ssap://tv/getChannelList", none⟩
  | .GetCurrentChannel =>
      some ⟨id, "request", "ssap://tv/getCurrentChannel", none⟩
  | .OpenChannel channel_id =>
      some ⟨id, "request", "ssap://tv/openChannel",
        some (.obj [("channelId", .str channel_id)])⟩
  | .GetExternalInputList =>
      some ⟨id, "request", "ssap://tv/getExternalInputList", none⟩
  | .SwitchInput input_id =>
      some ⟨id, "request", "ssap://tv/switchInput",
        some (.obj [("inputId", .str input_id)])⟩
  | .IsMuted =>
      some ⟨id, "request", "ssap://audio/getStatus", none⟩
  | .GetVolume =>
      some ⟨id, "request", "ssap://audio/getVolume", none⟩
  | .PlayMedia =>
      some ⟨id, "request", "ssap://media.controls/play", none⟩
  | .StopMedia =>
      some ⟨id, "request", "ssap://media.controls/stop", none⟩
  | .PauseMedia =>
      some ⟨id, "request", "ssap://media.controls/pause", none⟩
  | .RewindMedia =>
      some ⟨id, "request", "ssap://media.controls/rewind", none⟩
  | .ForwardMedia =>
      some ⟨id, "request", "ssap://media.controls/fastForward", none⟩
  | .ChannelUp =>
      some ⟨id, "request", "ssap://tv/channelUp", none⟩
  | .ChannelDown =>
      some ⟨id, "request", "ssap://tv/channelDown", none⟩
  | .Turn3DOn =>
      some ⟨id, "request", "ssap://com.webos.service.tv.display/set3DOn", none⟩
  | .Turn3DOff =>
      some ⟨id, "request", "ssap://com.webos.service.tv.display/set3DOff", none⟩
  | .GetServicesList =>
      some ⟨id, "request",
        "ssap://com.webos.service.update/getCurrentSWInformation", none⟩

/-! ### Shared state

`WebosClient` (lib.rs 137-142) holds the write half of the socket and three
pieces of shared state: `registered : Arc<Mutex<bool>>`,
`next_command_id : Arc<Mutex<u8>>` and
`pending_requests : Arc<Mutex<HashMap<u8, Pinky<CommandResponse>>>>`.
The map is modelled as an association list with distinct keys; a
`Pinky` completion handle is identified by a `Nat` token, and resolving a
handle (`swear`) is modelled as emitting the pair (token, response). -/

/-- The `HashMap` lookup `get`. -/
def tableLookup (t : List (Nat × Nat)) (k : Nat) : Option Nat :=
  t.lookup k

/-- The `HashMap` `insert` (replaces any entry at the same key). -/
def tableInsert (t : List (Nat × Nat)) (k v : Nat) : List (Nat × Nat) :=
  (k, v) :: t.filter (fun p => p.1 ≠ k)

/-- The `HashMap` `contains_key`. -/
def tableContains (t : List (Nat × Nat)) (k : Nat) : Bool :=
  (t.lookup k).isSome

/-- The shared mutable state of a `WebosClient` (lib.rs 139-141). -/
structure ClientState where
  registered : Bool
  next_command_id : Nat
  pending_requests : List (Nat × Nat)

/-- One item of the inbound stream, as the router's closure discriminates
it (lib.rs 202-205): a transport error (`Err(_)`), a message with no text
form (`into_text().ok()` is `None`), a text that is not valid JSON
(`serde_json::from_str` fails), or a text parsing to a JSON value. -/
inductive Inbound where
  | err : Inbound
  | notText : Inbound
  | badJson : Inbound
  | json (j : Json) : Inbound

/-- Result of the router processing one message: either the task panics
(an `unwrap` failed), or it continues with a new state, having resolved
(`swear`ed) the listed (handle token, response) pairs. -/
inductive StepResult where
  | panic : StepResult
  | ok (st : ClientState) (resolved : List (Nat × CommandResponse)) : StepResult

/-- The body of the `for_each` closure in `process_messages_from_server`
(lib.rs 202-222), processing a single inbound item.

Panics faithfully mirror the source: `json["id"].as_i64().unwrap()`
(lib.rs 210) and `requests.get(&response.id).unwrap()` (lib.rs 215).
`as u8` is truncation to the low byte, i.e. `% 256` (Euclidean for the
`i64`).  Note the matched table entry is read with `get`, never removed. -/
def process_message (st : ClientState) (m : Inbound) : StepResult :=
  match m with
  | .err => .ok st []
  | .notText => .ok st []
  | .badJson => .ok st []
  | .json j =>
      if (j.index "type").eqStr "registered" then
        .ok { st with registered := true } []
      else if st.registered then
        match (j.index "id").as_i64 with
        | none => .panic
        | some n =>
            let rid := (n % 256).toNat
            match tableLookup st.pending_requests rid with
            | none => .panic
            | some pinky =>
                .ok st [(pinky, ⟨rid, some (j.index "payload")⟩)]
      else
        .ok st []

/-- Result of the router task over a whole inbound sequence: the task
either panicked part-way (resolutions made before the panic are listed),
or consumed every item. -/
inductive RunResult where
  | panicked (resolved : List (Nat × CommandResponse)) : RunResult
  | finished (st : ClientState) (resolved : List (Nat × CommandResponse)) : RunResult

/-- `process_messages_from_server` (lib.rs 197-224): the background task,
folding `process_message` over the inbound stream in arrival order.  A
panic aborts the task; no later item is processed. -/
def process_messages_from_server (st : ClientState) :
    List Inbound → RunResult
  | [] => .finished st []
  | m :: ms =>
      match process_message st m with
      | .panic => .panicked []
      | .ok st' rs =>
          match process_messages_from_server st' ms with
          | .panicked rs' => .panicked (rs ++ rs')
          | .finished st'' rs' => .finished st'' (rs ++ rs')

/-- Outcome of `send_command` for the caller: the two error strings from
lib.rs 172 and 189, or suspension on the completion handle registered
under the allocated id (`Ok(promise.await)`, lib.rs 185-187). -/
inductive SendOutcome where
  | notRegistered : SendOutcome
  | sendFailed : SendOutcome
  | pending (id : Nat) (pinky : Nat) : SendOutcome

/-- A `send_command` call's effect: the caller-visible outcome, the state
afterwards, and the messages successfully written to the Transport (the
code serializes the whole `Option<CommandRequest>`, lib.rs 180, so a
written message is an `Option CommandRequest`). -/
structure SendStep where
  outcome : SendOutcome
  state : ClientState
  sent : List (Option CommandRequest)

/-- `WebosClient::send_command` (lib.rs 170-194).  `sendOk` says whether
the Transport write succeeds; `pinky` is the fresh completion-handle token
created by `PinkySwear::new`.  The counter lock (`next_command_id.lock()`)
always succeeds in this single-failure-free model, so the
"Could not generate next id" branch (lib.rs 192) is unreachable; `*val += 1`
on the `u8` counter wraps modulo 256. -/
def send_command (st : ClientState) (cmd : Command) (sendOk : Bool)
    (pinky : Nat) : SendStep :=
  if !st.registered then
    ⟨.notRegistered, st, []⟩
  else
    let val := (st.next_command_id + 1) % 256
    let st1 := { st with next_command_id := val }
    let msg := create_command val cmd
    if sendOk then
      ⟨.pending val pinky,
       { st1 with pending_requests := tableInsert st1.pending_requests val pinky },
       [msg]⟩
    else
      ⟨.sendFailed, st1, []⟩

/-- Outcome of `WebosClient::new` (lib.rs 145-168).  `errReturn` is an
`Err` return of the function's `Result<WebosClient, String>` type; the
body of `new` never produces it (its failure paths are `expect`/`unwrap`
panics), but the constructor is needed to state the spec's claim about an
error-returning connect.  `panicBeforeSpawn` is a panic raised before the
router task is spawned and before the handshake is sent;
`panicAfterSpawn` is the handshake-send `unwrap` panic (lib.rs 160),
raised after the router task is already running. -/
inductive ConnectOutcome where
  | panicBeforeSpawn : ConnectOutcome
  | panicAfterSpawn : ConnectOutcome
  | errReturn (msg : String) : ConnectOutcome
  | ok (st : ClientState) : ConnectOutcome

/-- Whether the outcome is an `Err` return (rather than a panic or `Ok`). -/
def ConnectOutcome.isErrReturn : ConnectOutcome → Bool
  | .errReturn _ => true
  | _ => false

/-- Whether the router task was spawned before the outcome occurred. -/
def ConnectOutcome.routerSpawned : ConnectOutcome → Bool
  | .panicBeforeSpawn => false
  | .errReturn _ => false
  | _ => true

/-- Whether the handshake message was sent before the outcome occurred. -/
def ConnectOutcome.handshakeSent : ConnectOutcome → Bool
  | .ok _ => true
  | _ => false

/-- `WebosClient::new` (lib.rs 145-168).  `urlOk`: `Url::parse` succeeds
(else `expect("Could not parse given address")` panics); `connectOk`: the
Transport opens (else `expect("Failed to connect")` panics);
`handshakeSendOk`: the handshake write succeeds (else the `unwrap` at
lib.rs 160 panics).  On success the client starts unregistered, with
counter 0 and an empty table (lib.rs 151-155). -/
def WebosClient.new (urlOk connectOk handshakeSendOk : Bool) : ConnectOutcome :=
  if !urlOk then .panicBeforeSpawn
  else if !connectOk then .panicBeforeSpawn
  else if !handshakeSendOk then .panicAfterSpawn
  else .ok ⟨false, 0, []⟩

/-! ### Derived runs and concrete messages -/

/-- A sequence of `send_command` calls against the same client: each list
item is (command, does the Transport write succeed, fresh handle token).
Returns the caller-visible outcomes, the final state, and everything
written to the Transport. -/
def send_commandN (st : ClientState) :
    List (Command × Bool × Nat) →
      List SendOutcome × ClientState × List (Option CommandRequest)
  | [] => ([], st, [])
  | c :: rest =>
      let step := send_command st c.1 c.2.1 c.2.2
      let next := send_commandN step.state rest
      (step.outcome :: next.1, next.2.1, step.sent ++ next.2.2)

/-- The id consumed by each call of a `send_command` sequence: the counter
value the call leaves behind, which is the id it used in
`create_command` (lib.rs 176-180). -/
def consumedIds (st : ClientState) :
    List (Command × Bool × Nat) → List Nat
  | [] => []
  | c :: rest =>
      let step := send_command st c.1 c.2.1 c.2.2
      step.state.next_command_id :: consumedIds step.state rest

/-- The registration acknowledgment `{"type":"registered"}`. -/
def registeredMsg : Json :=
  .obj [("type", .str "registered")]

/-- A response message `{"type":"response","id":n,"payload":p}`. -/
def responseMsg (n : Int) (p : Json) : Json :=
  .obj [("type", .str "response"), ("id", .num n), ("payload", p)]

/-! ### Claims -/

/-- C10: for every `Command` variant and every id, `create_command`
returns `Some` request — never `None` — and the produced request's type is
always `"request"`, so the serialized outbound message is a request
envelope, never JSON `null`. -/
theorem create_command_total_and_typed_request (id : Nat) (cmd : Command) :
    ∃ req : CommandRequest,
      create_command id cmd = some req ∧ req.type = "request" := by
  cases cmd <;> exact ⟨_, rfl, rfl⟩

/-- C3: while the Handshake Gate is false, every `send_command` call fails
with `NotRegistered`, consumes no id, registers no completion handle and
writes nothing to the Transport; N such calls yield N `NotRegistered`
failures, zero Transport writes, and leave the state untouched. -/
theorem send_command_unregistered_all_fail (st : ClientState)
    (calls : List (Command × Bool × Nat)) (h : st.registered = false) :
    (∀ cmd sendOk pinky,
      send_command st cmd sendOk pinky = ⟨.notRegistered, st, []⟩) ∧
    (send_commandN st calls).1 =
      List.replicate calls.length SendOutcome.notRegistered ∧
    (send_commandN st calls).2.1 = st ∧
    (send_commandN st calls).2.2 = [] := by
  have single : ∀ cmd sendOk pinky,
      send_command st cmd sendOk pinky = ⟨.notRegistered, st, []⟩ := by
    intro cmd sendOk pinky
    simp [send_command, h]
  refine ⟨single, ?_⟩
  induction calls with
  | nil => exact ⟨rfl, rfl, rfl⟩
  | cons c rest ih =>
      obtain ⟨ih1, ih2, ih3⟩ := ih
      refine ⟨?_, ?_, ?_⟩ <;>
        simp [send_commandN, single c.1 c.2.1 c.2.2, ih1, ih2, ih3,
          List.replicate_succ]

/-- Witness for C3: two concrete pre-registration calls both fail with
`NotRegistered`, leave the state unchanged, and write nothing. -/
theorem send_command_unregistered_all_fail_witness :
    (send_commandN ⟨false, 0, []⟩
        [(Command.TurnOff, true, 0), (Command.GetVolume, false, 1)]).1 =
      List.replicate 2 SendOutcome.notRegistered ∧
    (send_commandN ⟨false, 0, []⟩
        [(Command.TurnOff, true, 0), (Command.GetVolume, false, 1)]).2.2 = [] := by
  have h := send_command_unregistered_all_fail ⟨false, 0, []⟩
    [(Command.TurnOff, true, 0), (Command.GetVolume, false, 1)] rfl
  exact ⟨h.2.1, h.2.2.2⟩

/-- C9: a `send_command` call whose Transport write fails returns the
`SendFailed` error (`"Could not send command"`, lib.rs 189) and registers
no completion handle: the Correlation Table is exactly what it was. -/
theorem send_command_send_failure_no_handle (st : ClientState)
    (cmd : Command) (pinky : Nat) (h : st.registered = true) :
    (send_command st cmd false pinky).outcome = .sendFailed ∧
    (send_command st cmd false pinky).state.pending_requests =
      st.pending_requests ∧
    (send_command st cmd false pinky).sent = [] := by
  refine ⟨?_, ?_, ?_⟩ <;> simp [send_command, h]

/-- Witness for C9: a concrete failed write yields `SendFailed` and an
unchanged table. -/
theorem send_command_send_failure_no_handle_witness :
    (send_command ⟨true, 3, [(2, 9)]⟩ Command.TurnOff false 4).outcome =
      SendOutcome.sendFailed ∧
    (send_command ⟨true, 3, [(2, 9)]⟩ Command.TurnOff false 4).state.pending_requests =
      [(2, 9)] :=
  ⟨(send_command_send_failure_no_handle ⟨true, 3, [(2, 9)]⟩
      Command.TurnOff 4 rfl).1,
   (send_command_send_failure_no_handle ⟨true, 3, [(2, 9)]⟩
      Command.TurnOff 4 rfl).2.1⟩

/-- C1: the claim requires that an inbound message whose id has no live
Correlation Table entry is dropped and later messages still processed; the
code instead panics (`requests.get(&response.id).unwrap()`, lib.rs 215),
aborting the router task, so the registration message queued right behind
the unmatched response is never processed. -/
theorem router_panics_on_unmatched_id :
    process_message ⟨true, 1, []⟩ (.json (responseMsg 5 .null)) = .panic ∧
    process_messages_from_server ⟨true, 1, []⟩
        [.json (responseMsg 5 .null), .json registeredMsg] = .panicked [] :=
  ⟨rfl, rfl⟩

/-- C2, counterexample: with the table holding `{1 ↦ handle 7}` and the
gate open, routing `{"type":"response","id":1,"payload":{...}}` resolves
handle 7 but leaves the state — table included — unchanged: the table
still contains id 1 after the step, contradicting the claim that the
entry is removed. -/
theorem router_resolve_keeps_entry_counterexample :
    process_message ⟨true, 1, [(1, 7)]⟩
        (.json (responseMsg 1 (.obj [("returnValue", .bool true)]))) =
      .ok ⟨true, 1, [(1, 7)]⟩
        [(7, ⟨1, some (.obj [("returnValue", .bool true)])⟩)] ∧
    tableContains [(1, 7)] 1 = true :=
  ⟨rfl, rfl⟩

/-- C2, amended: when the Router finds a Correlation Table entry for the
inbound message's id, it resolves that entry's completion handle with
`CommandResponse{id, payload}`, but it reads the entry with `get` and
never removes it: the state, table included, is unchanged and the table
still contains the id after the step. -/
theorem router_resolves_found_entry_without_removal (st : ClientState)
    (j : Json) (n : Int) (pinky : Nat)
    (hreg : st.registered = true)
    (hty : (j.index "type").eqStr "registered" = false)
    (hid : (j.index "id").as_i64 = some n)
    (hfound : tableLookup st.pending_requests (n % 256).toNat = some pinky) :
    process_message st (.json j) =
      .ok st [(pinky, ⟨(n % 256).toNat, some (j.index "payload")⟩)] ∧
    tableContains st.pending_requests (n % 256).toNat = true := by
  constructor
  · simp [process_message, hty, hreg, hid, hfound]
  · rw [tableContains, show st.pending_requests.lookup (n % 256).toNat =
      some pinky from hfound]
    rfl

/-- Witness for C2's amended theorem: a concrete found entry is resolved
and survives the step. -/
theorem router_resolves_found_entry_without_removal_witness :
    process_message ⟨true, 2, [(2, 11)]⟩ (.json (responseMsg 2 .null)) =
      .ok ⟨true, 2, [(2, 11)]⟩ [(11, ⟨2, some Json.null⟩)] ∧
    tableContains ([(2, 11)] : List (Nat × Nat)) 2 = true :=
  router_resolves_found_entry_without_removal ⟨true, 2, [(2, 11)]⟩
    (responseMsg 2 .null) 2 11 rfl rfl rfl rfl

/-- C4, counterexample: with the gate open, the valid JSON message
`{"type":"response"}` — missing the required id field — makes the Router
panic (`json["id"].as_i64().unwrap()`, lib.rs 210) instead of being
skipped, so processing of later messages does not proceed. -/
theorem router_missing_id_panic_counterexample :
    process_message ⟨true, 0, []⟩
        (.json (.obj [("type", Json.str "response")])) = .panic ∧
    process_messages_from_server ⟨true, 0, []⟩
        [.json (.obj [("type", Json.str "response")]), .json registeredMsg] =
      .panicked [] :=
  ⟨rfl, rfl⟩

/-- C4, amended: transport-error items, messages with no text form, and
text that is not valid JSON are skipped with no state change and
processing continues; a JSON message that is not the registration
acknowledgment is likewise dropped with no state change while the gate is
false; but while the gate is true, such a message whose id field is
missing or not an integer makes the Router panic rather than skip. -/
theorem router_skip_cases_and_missing_id_panic (st : ClientState)
    (j : Json) :
    process_message st .err = .ok st [] ∧
    process_message st .notText = .ok st [] ∧
    process_message st .badJson = .ok st [] ∧
    (∀ ms, process_messages_from_server st (.err :: ms) =
      process_messages_from_server st ms) ∧
    (∀ ms, process_messages_from_server st (.badJson :: ms) =
      process_messages_from_server st ms) ∧
    (st.registered = false → (j.index "type").eqStr "registered" = false →
      process_message st (.json j) = .ok st []) ∧
    (st.registered = true → (j.index "type").eqStr "registered" = false →
      (j.index "id").as_i64 = none →
      process_message st (.json j) = .panic) := by
  have skipRun : ∀ (m : Inbound), process_message st m = .ok st [] →
      ∀ ms, process_messages_from_server st (m :: ms) =
        process_messages_from_server st ms := by
    intro m hm ms
    rcases hr : process_messages_from_server st ms with rs' | ⟨st'', rs'⟩ <;>
      simp [process_messages_from_server, hm, hr]
  refine ⟨rfl, rfl, rfl, skipRun _ rfl, skipRun _ rfl, ?_, ?_⟩
  · intro hreg hty
    simp [process_message, hty, hreg]
  · intro hreg hty hid
    simp [process_message, hty, hreg, hid]

/-- Witness for C4's amended theorem: concrete skip and panic instances. -/
theorem router_skip_cases_and_missing_id_panic_witness :
    process_message ⟨false, 0, []⟩ Inbound.badJson = .ok ⟨false, 0, []⟩ [] ∧
    process_message ⟨false, 0, []⟩
        (.json (.obj [("type", Json.str "response")])) = .ok ⟨false, 0, []⟩ [] ∧
    process_message ⟨true, 0, []⟩
        (.json (.obj [("type", Json.str "hello")])) = .panic :=
  ⟨(router_skip_cases_and_missing_id_panic ⟨false, 0, []⟩
      (.obj [("type", Json.str "response")])).2.2.1,
   (router_skip_cases_and_missing_id_panic ⟨false, 0, []⟩
      (.obj [("type", Json.str "response")])).2.2.2.2.2.1 rfl rfl,
   (router_skip_cases_and_missing_id_panic ⟨true, 0, []⟩
      (.obj [("type", Json.str "hello")])).2.2.2.2.2.2 rfl rfl rfl⟩

/-- C5, counterexample: when the Transport cannot be opened
(`connect_async` fails), `WebosClient::new` does not return the claimed
error result — it panics (`expect("Failed to connect")`, lib.rs 147)
before spawning anything. -/
theorem connect_failure_panics_counterexample :
    WebosClient.new true false true = .panicBeforeSpawn ∧
    (WebosClient.new true false true).isErrReturn = false :=
  ⟨rfl, rfl⟩

/-- C5, amended: if the Transport cannot be opened, `WebosClient::new`
panics (via `expect`) instead of returning an error result; it still
performs no further action — no Router task is spawned, no handshake is
sent, and no client state is handed to the caller. -/
theorem connect_failure_no_further_action (urlOk hs : Bool) :
    WebosClient.new urlOk false hs = .panicBeforeSpawn ∧
    (WebosClient.new urlOk false hs).routerSpawned = false ∧
    (WebosClient.new urlOk false hs).handshakeSent = false ∧
    (WebosClient.new urlOk false hs).isErrReturn = false := by
  cases urlOk <;>
    exact ⟨rfl, rfl, rfl, rfl⟩

/-- A gate-passing `send_command` call leaves the flag set and advances
the counter by one, wrapping modulo 256 (lib.rs 176). -/
theorem send_command_registered_step (st : ClientState) (cmd : Command)
    (sendOk : Bool) (pinky : Nat) (h : st.registered = true) :
    (send_command st cmd sendOk pinky).state.registered = true ∧
    (send_command st cmd sendOk pinky).state.next_command_id =
      (st.next_command_id + 1) % 256 := by
  cases sendOk <;> simp [send_command, h]

/-- While the gate is open, the ids consumed by a call sequence are the
successive counter values `(c₀ + k + 1) % 256`. -/
theorem consumedIds_eq_range (calls : List (Command × Bool × Nat)) :
    ∀ st : ClientState, st.registered = true →
      consumedIds st calls =
        (List.range calls.length).map
          (fun k => (st.next_command_id + k + 1) % 256) := by
  induction calls with
  | nil => intro st _; rfl
  | cons c rest ih =>
      intro st h
      have hs := send_command_registered_step st c.1 c.2.1 c.2.2 h
      rw [consumedIds, ih _ hs.1, hs.2, List.length_cons,
        List.range_succ_eq_map, List.map_cons, List.map_map]
      refine congrArg₂ _ rfl ?_
      congr 1
      funext k
      simp only [Function.comp_apply]
      omega

/-- C6: every gate-passing `send_command` call reads-and-increments the id
counter as one unit — the call's id is the incremented counter value,
wrapping modulo the single-byte range 256 — so consecutive allocations
are the successive values `(c₀ + k + 1) % 256` and any two calls fewer
than 256 apart consume distinct ids. -/
theorem send_command_id_allocation (st : ClientState)
    (calls : List (Command × Bool × Nat)) (h : st.registered = true) :
    (∀ cmd pinky, (send_command st cmd true pinky).outcome =
      .pending ((st.next_command_id + 1) % 256) pinky) ∧
    (∀ cmd sendOk pinky,
      (send_command st cmd sendOk pinky).state.next_command_id =
        (st.next_command_id + 1) % 256) ∧
    consumedIds st calls =
      (List.range calls.length).map
        (fun k => (st.next_command_id + k + 1) % 256) ∧
    (∀ i j : Nat, i < j → j < calls.length → j - i < 256 →
      (consumedIds st calls)[i]? ≠ (consumedIds st calls)[j]?) := by
  have hform := consumedIds_eq_range calls st h
  refine ⟨?_, ?_, hform, ?_⟩
  · intro cmd pinky
    simp [send_command, h]
  · intro cmd sendOk pinky
    cases sendOk <;> simp [send_command, h]
  · intro i j hij hj hspan
    have hi : i < calls.length := lt_trans hij hj
    intro hc
    rw [hform, List.getElem?_map, List.getElem?_map,
      List.getElem?_range hi, List.getElem?_range hj] at hc
    have h2 : (st.next_command_id + i + 1) % 256 =
        (st.next_command_id + j + 1) % 256 := by
      simpa using hc
    omega

/-- Witness for C6: with the gate open and counter 0, a successful call
is assigned id 1, and two consecutive calls consume the distinct ids
1 and 2. -/
theorem send_command_id_allocation_witness :
    (send_command ⟨true, 0, []⟩ Command.TurnOff true 5).outcome =
      SendOutcome.pending 1 5 ∧
    consumedIds ⟨true, 0, []⟩
      [(Command.TurnOff, true, 0), (Command.GetVolume, false, 1)] = [1, 2] := by
  have h := send_command_id_allocation ⟨true, 0, []⟩
    [(Command.TurnOff, true, 0), (Command.GetVolume, false, 1)] rfl
  exact ⟨h.1 Command.TurnOff 5, by rw [h.2.2.1]; rfl⟩

/-- C7: the registration flag starts false (lib.rs 151), is set to true by
the `{"type":"registered"}` acknowledgment (idempotently), is never reset
by any router step or by `send_command`, and while it is false every
other inbound message is silently dropped with no state change. -/
theorem registered_flag_monotonic (st : ClientState) (j : Json)
    (m : Inbound) :
    (∀ urlOk connectOk hsOk stInit,
      WebosClient.new urlOk connectOk hsOk = .ok stInit →
      stInit.registered = false) ∧
    ((j.index "type").eqStr "registered" = true →
      process_message st (.json j) = .ok { st with registered := true } []) ∧
    (∀ st' rs, process_message st m = .ok st' rs →
      st.registered = true → st'.registered = true) ∧
    (∀ cmd sendOk pinky,
      (send_command st cmd sendOk pinky).state.registered = st.registered) ∧
    (st.registered = false → (j.index "type").eqStr "registered" = false →
      process_message st (.json j) = .ok st []) := by
  refine ⟨?_, ?_, ?_, ?_, ?_⟩
  · intro urlOk connectOk hsOk stInit hok
    cases urlOk <;> cases connectOk <;> cases hsOk <;> simp_all [WebosClient.new]
    subst hok
    rfl
  · intro hty
    simp [process_message, hty]
  · intro st' rs hstep htrue
    cases m with
    | err => cases hstep; exact htrue
    | notText => cases hstep; exact htrue
    | badJson => cases hstep; exact htrue
    | json jm =>
        by_cases hty : (jm.index "type").eqStr "registered" = true
        · simp [process_message, hty] at hstep
          obtain ⟨h1, h2⟩ := hstep
          subst h1
          rfl
        · have hty' : (jm.index "type").eqStr "registered" = false := by
            simpa using hty
          cases hid : (jm.index "id").as_i64 with
          | none =>
              simp [process_message, hty', htrue, hid] at hstep
          | some n =>
              cases hlk : tableLookup st.pending_requests (n % 256).toNat with
              | none =>
                  simp [process_message, hty', htrue, hid, hlk] at hstep
              | some pinky =>
                  simp [process_message, hty', htrue, hid, hlk] at hstep
                  obtain ⟨h1, h2⟩ := hstep
                  subst h1
                  exact htrue
  · intro cmd sendOk pinky
    cases hreg : st.registered <;> cases sendOk <;> simp [send_command, hreg]
  · intro hreg hty
    simp [process_message, hty, hreg]

/-- Witness for C7: the connected client starts unregistered, the
acknowledgment flips a concrete unregistered state to registered, a
registered state stays registered across a router step, and a concrete
pre-registration response is dropped unchanged. -/
theorem registered_flag_monotonic_witness :
    (⟨false, 0, []⟩ : ClientState).registered = false ∧
    process_message ⟨false, 5, [(1, 2)]⟩ (.json registeredMsg) =
      .ok ⟨true, 5, [(1, 2)]⟩ [] ∧
    (⟨true, 0, []⟩ : ClientState).registered = true ∧
    process_message ⟨false, 0, []⟩ (.json (responseMsg 1 .null)) =
      .ok ⟨false, 0, []⟩ [] :=
  ⟨(registered_flag_monotonic ⟨false, 0, []⟩ .null .err).1
      true true true ⟨false, 0, []⟩ rfl,
   (registered_flag_monotonic ⟨false, 5, [(1, 2)]⟩ registeredMsg .err).2.1 rfl,
   (registered_flag_monotonic ⟨true, 0, []⟩ .null .err).2.2.1
      ⟨true, 0, []⟩ [] rfl rfl,
   (registered_flag_monotonic ⟨false, 0, []⟩ (responseMsg 1 .null) .err).2.2.2.2
      rfl rfl⟩

/-- The wire envelope of `CreateToast "hello"` under id 1. -/
def toastWire : CommandRequest :=
  ⟨1, "request", "ssap://system.notifications/createToast",
    some (.obj [("message", .str "hello")])⟩

/-- C8: round trip.  Connect yields an unregistered client with counter 0
and an empty table; routing `{"type":"registered"}` opens the gate; the
first `send_command (CreateToast "hello")` is assigned id 1 and writes the
envelope `{"id":1,"type":"request","uri":"ssap://system.notifications/createToast",
"payload":{"message":"hello"}}`, registering its handle under id 1; routing
`{"type":"response","id":1,"payload":{"returnValue":true}}` resolves that
handle with `CommandResponse{id:1, payload:{"returnValue":true}}`. -/
theorem roundtrip_create_toast :
    WebosClient.new true true true = .ok ⟨false, 0, []⟩ ∧
    process_message ⟨false, 0, []⟩ (.json registeredMsg) = .ok ⟨true, 0, []⟩ [] ∧
    send_command ⟨true, 0, []⟩ (.CreateToast "hello") true 0 =
      ⟨.pending 1 0, ⟨true, 1, [(1, 0)]⟩, [some toastWire]⟩ ∧
    process_message ⟨true, 1, [(1, 0)]⟩
        (.json (responseMsg 1 (.obj [("returnValue", .bool true)]))) =
      .ok ⟨true, 1, [(1, 0)]⟩
        [(0, ⟨1, some (.obj [("returnValue", .bool true)])⟩)] :=
  ⟨rfl, rfl, rfl, rfl⟩

end LgWebos
